import Mathlib

/-!
Verification of the `dylo` module loader core (`dylo-runtime`), a shallow
embedding of `src/dylo-runtime/src/details.rs` and
`src/dylo-runtime/src/details/platform.rs` into Lean.

Conventions of the embedding:
* environment variables are passed explicitly as `Option String`;
* filesystem paths are plain strings, joined with `"/"` exactly where the
  source formats or joins them;
* process-fatal conditions (`panic!` / `.expect(..)` / `.unwrap()`) become
  `Except`/`Option` error results carrying the same message text;
* the outside world (spawned build process outcome, `dlopen`/`dlsym`
  results, the located module source directory) is an explicit oracle
  record, since the Rust code only observes those results.
-/

namespace Dylo

/-! ## Platform abstraction (`details/platform.rs`) -/

/-- Target operating systems distinguished by the `cfg!` checks in
`Extensions::get`; `other` stands for any OS that is neither macOS nor
Linux. -/
inductive TargetOS where
  | macos
  | linux
  | other
deriving DecidableEq, Repr

/-- `struct Extensions { lib: &'static str, dbg: &'static str }`. -/
structure Extensions where
  lib : String
  dbg : String
deriving DecidableEq, Repr

/-- `Extensions::get()`: `dylib`/`dSYM` on macOS, `so`/`so.dwp` on Linux,
and a process-fatal `panic!` (modelled as `none`) on any other target OS. -/
def Extensions.get : TargetOS → Option Extensions
  | .macos => some { lib := "dylib", dbg := "dSYM" }
  | .linux => some { lib := "so", dbg := "so.dwp" }
  | .other => none

/-! ## Build mode (`enum BuildMod` in `details.rs`) -/

/-- `enum BuildMod { Dont, Yes, Verbosely }`. -/
inductive BuildMod where
  | dont
  | yes
  | verbosely
deriving DecidableEq, Repr

/-- `BuildMod::from_env()`: reads `DYLO_BUILD`; `"0"` means don't build,
`"1"` means build (captured output), `"verbose"` means build with streamed
output, and anything else (including the variable being unset) defaults to
`Yes`. -/
def BuildMod.from_env (dylo_build : Option String) : BuildMod :=
  match dylo_build with
  | some "0" => .dont
  | some "1" => .yes
  | some "verbose" => .verbosely
  | _ => .yes

/-- `BuildMod::should_build`. -/
def BuildMod.should_build : BuildMod → Bool
  | .dont => false
  | .yes => true
  | .verbosely => true

/-- `BuildMod::is_verbose`. -/
def BuildMod.is_verbose : BuildMod → Bool
  | .dont => false
  | .yes => false
  | .verbosely => true

/-! ## Target directory and module file names -/

/-- The relevant process environment, passed explicitly. -/
structure Env where
  dylo_build : Option String
  dylo_target_dir : Option String
  home : Option String
  userprofile : Option String
deriving Repr

/-- `get_target_dir`: if `DYLO_TARGET_DIR` is set its value is returned
verbatim (no validation of any kind); otherwise `HOME` (or `USERPROFILE`)
joined with `.dylo-mods/<mod_name>`; fatal if neither variable is set. -/
def get_target_dir (env : Env) (mod_name : String) : Except String String :=
  match env.dylo_target_dir with
  | some dir => .ok dir
  | none =>
    match env.home, env.userprofile with
    | some h, _ => .ok (h ++ "/.dylo-mods/" ++ mod_name)
    | none, some u => .ok (u ++ "/.dylo-mods/" ++ mod_name)
    | none, none => .error "Neither HOME nor USERPROFILE environment variables are set"

/-- The module shared-library file name used throughout `details.rs`:
the format string `"libmod_{}.{}"` applied to the module name and a
platform suffix. -/
def lib_file_name (mod_name ext : String) : String :=
  "libmod_" ++ mod_name ++ "." ++ ext

/-- Destination path of the built dylib in `build_mod`:
`format!("{}/libmod_{}.{}", current_exe_folder.display(), mod_name, extensions.lib)`. -/
def build_dylib_dest (exe_folder mod_name lib : String) : String :=
  exe_folder ++ "/" ++ "libmod_" ++ mod_name ++ "." ++ lib

/-- Source path of the built dylib in `build_mod`:
`cargo_target_dir.join(build_profile).join(format!("libmod_{}.{}", mod_name, extensions.lib))`. -/
def build_dylib_src (cargo_target_dir build_profile mod_name lib : String) : String :=
  cargo_target_dir ++ "/" ++ build_profile ++ "/" ++ lib_file_name mod_name lib

/-- Path `load_mod` hands to `dlopen`:
`current_exe_folder.join(format!("libmod_{}.{}", mod_name, extensions.lib))`. -/
def load_dylib_path (exe_folder mod_name lib : String) : String :=
  exe_folder ++ "/" ++ lib_file_name mod_name lib

/-- Modelled from the spec: the filename pattern
`lib<module_name>.<library_suffix>` that the specification says the loader
looks for (spec sections 4.2 step 3 and 6). Present only to be compared
with `lib_file_name`, the pattern the source actually uses. -/
def spec_lib_file_name (mod_name ext : String) : String :=
  "lib" ++ mod_name ++ "." ++ ext

/-! ## Output coloring (`platform.rs`) -/

/-- `colorize`: wraps the text in an ANSI color escape when colors are
enabled (`ce`), otherwise passes it through. -/
def colorize (ce : Bool) (color_code : Nat) (t : String) : String :=
  if ce then "\x1B[" ++ toString color_code ++ "m" ++ t ++ "\x1B[0m" else t

/-- `platform::blue`. -/
def blue (ce : Bool) (t : String) : String := colorize ce 34 t

/-- `platform::red`. -/
def red (ce : Bool) (t : String) : String := colorize ce 31 t

/-! ## Build output capture (`spawn_reader_thread` and the channel) -/

/-- `spawn_reader_thread` sends each line of its stream to the channel as
`format!("[{}] {}", stream_name, line)`. -/
def tag_lines (stream_name : String) (ls : List String) : List String :=
  ls.map (fun l => "[" ++ stream_name ++ "] " ++ l)

/-- The mpsc channel of `build_mod` merges the two reader threads' sends
purely by arrival order: the collected list is an order-preserving
interleaving of what each thread sent. -/
inductive Merged : List String → List String → List String → Prop where
  | nil : Merged [] [] []
  | left (x : String) {a b c : List String} : Merged a b c → Merged (x :: a) b (x :: c)
  | right (x : String) {a b c : List String} : Merged a b c → Merged a (x :: b) (x :: c)

/-- The lines `build_mod` writes to stderr when the build command exits
non-zero, before panicking (source lines 246–251). -/
def build_failure_report (mod_name : String) (lines : List String) : List String :=
  ["", "Failed to build " ++ mod_name ++ ", build log follows:", "", "=========="]
    ++ lines ++ ["==========", ""]

/-! ## The outside world observed by one build+load attempt -/

/-- Everything the Rust code observes from outside the process during one
`build_mod` + `load_mod` body: the executable's directory, the result of
the module-source-directory search, the spawned build's fate and output,
filesystem copy outcomes, and the dynamic loader's answers. -/
structure World where
  exe_folder : String
  mod_srcdir : Option String
  spawn_ok : Bool
  build_lines : List String
  build_exit_ok : Bool
  copy_ok : Bool
  dbg_exists : Bool
  dbg_copy_ok : Bool
  dlopen_ok : Bool
  dlerr : String
  dlsym_ok : Bool
  dlsym_err : String
  handle : Nat
deriving DecidableEq, Repr

/-- Each process-fatal exit point of `build_mod`/`load_mod`, carrying the
text the corresponding `panic!`/`expect` produces. -/
inductive LoadError where
  | unsupported_os
  | mod_dir_not_found (mod_name : String)
  | env_missing (msg : String)
  | spawn_failed
  | build_failed (mod_name : String) (log : List String)
  | copy_failed (src dest : String)
  | dbg_copy_failed (src dest : String)
  | dlopen_failed (msg : String)
  | dlsym_failed (msg : String)
  | lock_poisoned
deriving DecidableEq, Repr

/-- `build_mod`, as a function of the environment and the observed world;
returns the outcome together with how many external build commands were
spawned (0 or 1). Mirrors the source's order: `Extensions::get`, then
`get_paths` (which fails fatally if no `mod-<name>` directory is found,
and reads the target dir), then the `should_build` early return, then the
spawn, the capture, the exit-status check, and the artifact copies. -/
def build_mod_model (os : TargetOS) (env : Env) (w : World) (mod_name : String)
    (debug_assertions : Bool) : Except LoadError Unit × Nat :=
  match Extensions.get os with
  | none => (.error .unsupported_os, 0)
  | some ext =>
    match w.mod_srcdir with
    | none => (.error (.mod_dir_not_found mod_name), 0)
    | some _ =>
      match get_target_dir env mod_name with
      | .error e => (.error (.env_missing e), 0)
      | .ok target_dir =>
        let build_profile := if debug_assertions then "debug" else "release"
        let build_mode := BuildMod.from_env env.dylo_build
        if build_mode.should_build = false then (.ok (), 0)
        else if w.spawn_ok = false then (.error .spawn_failed, 1)
        else
          let lines := if build_mode.is_verbose then [] else w.build_lines
          if w.build_exit_ok = false then (.error (.build_failed mod_name lines), 1)
          else
            let dest := build_dylib_dest w.exe_folder mod_name ext.lib
            let src := build_dylib_src target_dir build_profile mod_name ext.lib
            if w.copy_ok = false then (.error (.copy_failed src dest), 1)
            else if w.dbg_exists && !w.dbg_copy_ok then
              (.error (.dbg_copy_failed
                (build_dylib_src target_dir build_profile mod_name ext.dbg)
                (build_dylib_dest w.exe_folder mod_name ext.dbg)), 1)
            else (.ok (), 1)

/-- One name's `LockSlot` together with the mutex poison bit: a Rust
`Mutex` whose holder panics is left poisoned, and every later
`.lock().unwrap()` on it panics. -/
structure SlotState where
  slot : Option Nat
  poisoned : Bool
deriving DecidableEq, Repr

/-- Result of one `load_mod` call in the sequential model. -/
structure LoadResult where
  outcome : Except LoadError Nat
  state : SlotState
  spawns : Nat
deriving Repr

/-- `load_mod` for one module name, sequentially: lock the slot (fatal if
poisoned), return the cached handle if present, otherwise run `build_mod`,
then `dlopen` the `libmod_<name>.<lib>` path beside the executable, then
`dlsym` the entry point, store and return the produced handle. Any fatal
exit while the slot lock is held leaves the mutex poisoned. -/
def load_mod_model (os : TargetOS) (env : Env) (w : World) (mod_name : String)
    (debug_assertions : Bool) (s : SlotState) : LoadResult :=
  if s.poisoned then ⟨.error .lock_poisoned, s, 0⟩
  else
    match s.slot with
    | some fat_pointer => ⟨.ok fat_pointer, s, 0⟩
    | none =>
      match build_mod_model os env w mod_name debug_assertions with
      | (.error e, k) => ⟨.error e, { s with poisoned := true }, k⟩
      | (.ok _, k) =>
        match Extensions.get os with
        | none => ⟨.error .unsupported_os, { s with poisoned := true }, k⟩
        | some _ =>
          if w.dlopen_ok = false then
            ⟨.error (.dlopen_failed ("Failed to load dynamic library: " ++ w.dlerr)),
              { s with poisoned := true }, k⟩
          else if w.dlsym_ok = false then
            ⟨.error (.dlsym_failed ("Did not find in dynamic library: " ++ w.dlsym_err)),
              { s with poisoned := true }, k⟩
          else ⟨.ok w.handle, { s with slot := some w.handle }, k⟩

/-- A sequence of `load_mod` calls for the same module name, each with its
own environment snapshot and world, threading the slot state through. -/
def load_seq (os : TargetOS) (mod_name : String) (debug_assertions : Bool) :
    List (Env × World) → SlotState → List (Except LoadError Nat × Nat) × SlotState
  | [], s => ([], s)
  | (e, w) :: rest, s =>
    let r := load_mod_model os e w mod_name debug_assertions s
    let tl := load_seq os mod_name debug_assertions rest r.state
    ((r.outcome, r.spawns) :: tl.1, tl.2)

/-! ## A small decidable substring check, used to state what an error
message does or does not mention. -/

/-- `leads_with s pat`: `s` starts with the character list `pat`. -/
def leads_with : List Char → List Char → Bool
  | _, [] => true
  | [], _ :: _ => false
  | c :: s, p :: ps => c == p && leads_with s ps

/-- `occurs_within pat s`: `pat` occurs contiguously somewhere in `s`. -/
def occurs_within (pat : List Char) : List Char → Bool
  | [] => leads_with [] pat
  | c :: rest => leads_with (c :: rest) pat || occurs_within pat rest

/-- `mentions s pat`: the string `pat` occurs inside the string `s`. -/
def mentions (s pat : String) : Bool :=
  occurs_within pat.toList s.toList

/-! ## Interleaved `load_mod` calls for one module name

`load_mod` serializes all work for one name behind that name's `LockSlot`
mutex: the registry lookup yields the same `Arc`'d slot to every caller,
`slot.lock()` admits one thread at a time, and the winning thread runs
`build_mod` + `dlopen` + `dlsym` + store while the rest block.  The
machine below is that protocol as a small-step relation: each thread is at
a program counter (`start` = before `slot.lock()`, `locked` = holding the
lock at the cache check of lines 297–300, `building` = inside the
`build_mod` … `init_fn` section of lines 303–339, `done h` = returned with
handle `h`), and a step is one thread moving.  `spawns` counts external
build-command spawns, `creations` counts `init_fn` invocations (capability
handles created); the `k`-th handle ever created is represented by the
number `k`. -/

/-- Program counter of one thread inside `load_mod`. -/
inductive PC where
  | start
  | locked
  | building
  | done (h : Nat)
deriving DecidableEq, Repr

/-- Global state for `n` threads calling `load_mod` on the same name. -/
structure Config (n : Nat) where
  lock_holder : Option (Fin n)
  slot : Option Nat
  spawns : Nat
  creations : Nat
  threads : Fin n → PC

/-- How many external build commands one pass through `build_mod` spawns,
as a function of the `DYLO_BUILD` value (source lines 150–154). -/
def sbn (e : Option String) : Nat :=
  if (BuildMod.from_env e).should_build then 1 else 0

/-- One interleaving step: `acquire` takes the free slot mutex, `hit` is
the cached return of lines 297–300, `miss` enters the build+load section
(spawning the build command if the build mode says to), `store` finishes
the section by creating a fresh handle, storing it, and returning it. -/
inductive Step (e : Option String) {n : Nat} : Config n → Config n → Prop where
  | acquire (i : Fin n) (c : Config n) :
      c.threads i = .start → c.lock_holder = none →
      Step e c { c with lock_holder := some i,
                        threads := Function.update c.threads i .locked }
  | hit (i : Fin n) (h : Nat) (c : Config n) :
      c.threads i = .locked → c.lock_holder = some i → c.slot = some h →
      Step e c { c with lock_holder := none,
                        threads := Function.update c.threads i (.done h) }
  | miss (i : Fin n) (c : Config n) :
      c.threads i = .locked → c.lock_holder = some i → c.slot = none →
      Step e c { c with spawns := c.spawns + sbn e,
                        threads := Function.update c.threads i .building }
  | store (i : Fin n) (c : Config n) :
      c.threads i = .building → c.lock_holder = some i →
      Step e c { c with slot := some c.creations,
                        creations := c.creations + 1,
                        lock_holder := none,
                        threads := Function.update c.threads i (.done c.creations) }

/-- `n` first-time callers, nothing loaded yet, nothing spawned. -/
def init_config (n : Nat) : Config n :=
  { lock_holder := none, slot := none, spawns := 0, creations := 0,
    threads := fun _ => .start }

/-- Configurations reachable by interleaving the `n` callers. -/
def Reach (e : Option String) {n : Nat} (c : Config n) : Prop :=
  Relation.ReflTransGen (Step e) (init_config n) c

/-- A thread is in the critical section (holds the slot mutex). -/
def in_cs (p : PC) : Prop := p = .locked ∨ p = .building

/-- The machine's inductive invariant: mutual exclusion, the slot is
written at most once, handles are created at most once, done threads
returned the stored handle, and the spawn counter is determined by the
creation counter and whether a thread is currently in the build section. -/
structure Inv (e : Option String) {n : Nat} (c : Config n) : Prop where
  holder_cs : ∀ i, c.lock_holder = some i → in_cs (c.threads i)
  cs_holder : ∀ i, in_cs (c.threads i) → c.lock_holder = some i
  building_slot : ∀ i, c.threads i = .building → c.slot = none
  slot_none_creations : c.slot = none → c.creations = 0
  slot_some : ∀ h, c.slot = some h → h = 0 ∧ c.creations = 1
  done_slot : ∀ i h, c.threads i = .done h → c.slot = some h
  spawns_idle : (∀ i, c.threads i ≠ .building) → c.spawns = sbn e * c.creations
  spawns_busy : ∀ i, c.threads i = .building → c.spawns = sbn e * (c.creations + 1)

theorem inv_init (e : Option String) (n : Nat) : Inv e (init_config n) := by
  refine ⟨?_, ?_, ?_, ?_, ?_, ?_, ?_, ?_⟩ <;> simp [init_config, in_cs, sbn]

theorem inv_step {e : Option String} {n : Nat} {c c2 : Config n}
    (hinv : Inv e c) (hs : Step e c c2) : Inv e c2 := by
  obtain ⟨h1, h2, h3, h4, h5, h6, h7, h8⟩ := hinv
  cases hs with
  | acquire i cc hstart hnone =>
    refine ⟨?_, ?_, ?_, ?_, ?_, ?_, ?_, ?_⟩
    · intro j hj
      obtain rfl : i = j := Option.some.inj hj
      show in_cs (Function.update c.threads i PC.locked i)
      rw [Function.update_same]
      exact Or.inl rfl
    · intro j hcs
      have hcs2 : in_cs (Function.update c.threads i PC.locked j) := hcs
      show (some i : Option (Fin n)) = some j
      rcases eq_or_ne j i with rfl | hji
      · rfl
      · rw [Function.update_noteq hji] at hcs2
        have hcontra := h2 j hcs2
        rw [hnone] at hcontra
        exact absurd hcontra (by simp)
    · intro j hb
      have hb2 : Function.update c.threads i PC.locked j = PC.building := hb
      show c.slot = none
      rcases eq_or_ne j i with rfl | hji
      · rw [Function.update_same] at hb2
        exact absurd hb2 (by simp)
      · rw [Function.update_noteq hji] at hb2
        exact h3 j hb2
    · exact h4
    · exact h5
    · intro j a hd
      have hd2 : Function.update c.threads i PC.locked j = PC.done a := hd
      show c.slot = some a
      rcases eq_or_ne j i with rfl | hji
      · rw [Function.update_same] at hd2
        exact absurd hd2 (by simp)
      · rw [Function.update_noteq hji] at hd2
        exact h6 j a hd2
    · intro hnb
      show c.spawns = sbn e * c.creations
      apply h7
      intro j
      rcases eq_or_ne j i with rfl | hji
      · rw [hstart]; simp
      · have hj := hnb j
        have hj2 : Function.update c.threads i PC.locked j ≠ PC.building := hj
        rw [Function.update_noteq hji] at hj2
        exact hj2
    · intro j hb
      have hb2 : Function.update c.threads i PC.locked j = PC.building := hb
      show c.spawns = sbn e * (c.creations + 1)
      rcases eq_or_ne j i with rfl | hji
      · rw [Function.update_same] at hb2
        exact absurd hb2 (by simp)
      · rw [Function.update_noteq hji] at hb2
        exact h8 j hb2
  | hit i h cc hlocked hhold hslot =>
    refine ⟨?_, ?_, ?_, ?_, ?_, ?_, ?_, ?_⟩
    · intro j hj
      exact absurd (show (none : Option (Fin n)) = some j from hj) (by simp)
    · intro j hcs
      have hcs2 : in_cs (Function.update c.threads i (PC.done h) j) := hcs
      rcases eq_or_ne j i with rfl | hji
      · rw [Function.update_same] at hcs2
        rcases hcs2 with hb | hb <;> exact absurd hb (by simp)
      · rw [Function.update_noteq hji] at hcs2
        have hcontra := h2 j hcs2
        rw [hhold] at hcontra
        exact absurd (Option.some.inj hcontra) (Ne.symm hji)
    · intro j hb
      have hb2 : Function.update c.threads i (PC.done h) j = PC.building := hb
      show c.slot = none
      rcases eq_or_ne j i with rfl | hji
      · rw [Function.update_same] at hb2
        exact absurd hb2 (by simp)
      · rw [Function.update_noteq hji] at hb2
        exact h3 j hb2
    · exact h4
    · exact h5
    · intro j a hd
      have hd2 : Function.update c.threads i (PC.done h) j = PC.done a := hd
      show c.slot = some a
      rcases eq_or_ne j i with rfl | hji
      · rw [Function.update_same] at hd2
        obtain rfl : h = a := by injection hd2
        exact hslot
      · rw [Function.update_noteq hji] at hd2
        exact h6 j a hd2
    · intro _
      show c.spawns = sbn e * c.creations
      apply h7
      intro j hbj
      have hcontra := h2 j (Or.inr hbj)
      rw [hhold] at hcontra
      obtain rfl : i = j := Option.some.inj hcontra
      rw [hlocked] at hbj
      exact absurd hbj (by simp)
    · intro j hb
      have hb2 : Function.update c.threads i (PC.done h) j = PC.building := hb
      show c.spawns = sbn e * (c.creations + 1)
      rcases eq_or_ne j i with rfl | hji
      · rw [Function.update_same] at hb2
        exact absurd hb2 (by simp)
      · rw [Function.update_noteq hji] at hb2
        have hcontra := h2 j (Or.inr hb2)
        rw [hhold] at hcontra
        exact absurd (Option.some.inj hcontra) (Ne.symm hji)
  | miss i cc hlocked hhold hslot =>
    refine ⟨?_, ?_, ?_, ?_, ?_, ?_, ?_, ?_⟩
    · intro j hj
      have hj2 : c.lock_holder = some j := hj
      rw [hhold] at hj2
      obtain rfl : i = j := Option.some.inj hj2
      show in_cs (Function.update c.threads i PC.building i)
      rw [Function.update_same]
      exact Or.inr rfl
    · intro j hcs
      have hcs2 : in_cs (Function.update c.threads i PC.building j) := hcs
      show c.lock_holder = some j
      rcases eq_or_ne j i with rfl | hji
      · exact hhold
      · rw [Function.update_noteq hji] at hcs2
        exact h2 j hcs2
    · intro j _
      exact hslot
    · exact h4
    · exact h5
    · intro j a hd
      have hd2 : Function.update c.threads i PC.building j = PC.done a := hd
      show c.slot = some a
      rcases eq_or_ne j i with rfl | hji
      · rw [Function.update_same] at hd2
        exact absurd hd2 (by simp)
      · rw [Function.update_noteq hji] at hd2
        have hcontra := h6 j a hd2
        rw [hslot] at hcontra
        exact absurd hcontra (by simp)
    · intro hnb
      have hni : Function.update c.threads i PC.building i ≠ PC.building := hnb i
      rw [Function.update_same] at hni
      exact absurd rfl hni
    · intro j hb
      show c.spawns + sbn e = sbn e * (c.creations + 1)
      have hidle : c.spawns = sbn e * c.creations := by
        apply h7
        intro k hk
        have hcontra := h2 k (Or.inr hk)
        rw [hhold] at hcontra
        obtain rfl : i = k := Option.some.inj hcontra
        rw [hlocked] at hk
        exact absurd hk (by simp)
      rw [hidle, Nat.mul_succ]
  | store i cc hbuilding hhold =>
    have hslotnone : c.slot = none := h3 i hbuilding
    have hc0 : c.creations = 0 := h4 hslotnone
    refine ⟨?_, ?_, ?_, ?_, ?_, ?_, ?_, ?_⟩
    · intro j hj
      exact absurd (show (none : Option (Fin n)) = some j from hj) (by simp)
    · intro j hcs
      have hcs2 : in_cs (Function.update c.threads i (PC.done c.creations) j) := hcs
      rcases eq_or_ne j i with rfl | hji
      · rw [Function.update_same] at hcs2
        rcases hcs2 with hb | hb <;> exact absurd hb (by simp)
      · rw [Function.update_noteq hji] at hcs2
        have hcontra := h2 j hcs2
        rw [hhold] at hcontra
        exact absurd (Option.some.inj hcontra) (Ne.symm hji)
    · intro j hb
      have hb2 : Function.update c.threads i (PC.done c.creations) j = PC.building := hb
      rcases eq_or_ne j i with rfl | hji
      · rw [Function.update_same] at hb2
        exact absurd hb2 (by simp)
      · rw [Function.update_noteq hji] at hb2
        have hcontra := h2 j (Or.inr hb2)
        rw [hhold] at hcontra
        exact absurd (Option.some.inj hcontra) (Ne.symm hji)
    · intro hnone2
      exact absurd (show (some c.creations : Option Nat) = none from hnone2) (by simp)
    · intro a hsome
      have ha : c.creations = a :=
        Option.some.inj (show (some c.creations : Option Nat) = some a from hsome)
      refine ⟨?_, ?_⟩
      · rw [← ha, hc0]
      · show c.creations + 1 = 1
        rw [hc0]
    · intro j a hd
      have hd2 : Function.update c.threads i (PC.done c.creations) j = PC.done a := hd
      show (some c.creations : Option Nat) = some a
      rcases eq_or_ne j i with rfl | hji
      · rw [Function.update_same] at hd2
        obtain rfl : c.creations = a := by injection hd2
        rfl
      · rw [Function.update_noteq hji] at hd2
        have hcontra := h6 j a hd2
        rw [hslotnone] at hcontra
        exact absurd hcontra (by simp)
    · intro _
      show c.spawns = sbn e * (c.creations + 1)
      exact h8 i hbuilding
    · intro j hb
      have hb2 : Function.update c.threads i (PC.done c.creations) j = PC.building := hb
      rcases eq_or_ne j i with rfl | hji
      · rw [Function.update_same] at hb2
        exact absurd hb2 (by simp)
      · rw [Function.update_noteq hji] at hb2
        have hcontra := h2 j (Or.inr hb2)
        rw [hhold] at hcontra
        exact absurd (Option.some.inj hcontra) (Ne.symm hji)

theorem inv_reach {e : Option String} {n : Nat} {c : Config n} (h : Reach e c) :
    Inv e c := by
  induction h with
  | refl => exact inv_init e n
  | tail _ hstep ih => exact inv_step ih hstep

/-- Claim C1: for N concurrent first-time `load_mod` calls on one module
name, starting from no prior state, at most one capability handle is ever
created in the process's lifetime (in any reachable configuration,
`creations ≤ 1`); and when the build mode says to build, once every caller
has returned, the external build command was spawned exactly once and all
callers returned the identical handle value. -/
theorem load_single_flight {n : Nat} (e : Option String) (c : Config n)
    (hreach : Reach e c) :
    c.creations ≤ 1 ∧
    ((BuildMod.from_env e).should_build = true →
      (∀ i, ∃ h, c.threads i = PC.done h) → 0 < n →
      (c.spawns = 1 ∧
       ∀ i j a b, c.threads i = PC.done a → c.threads j = PC.done b → a = b)) := by
  have hinv := inv_reach hreach
  constructor
  · cases hslot : c.slot with
    | none => rw [hinv.slot_none_creations hslot]; exact Nat.zero_le 1
    | some h => exact le_of_eq (hinv.slot_some h hslot).2
  · intro hsb hdone hn
    constructor
    · have hidle : ∀ i, c.threads i ≠ PC.building := by
        intro i hb
        obtain ⟨a, hd⟩ := hdone i
        rw [hd] at hb
        exact absurd hb (by simp)
      have hs := hinv.spawns_idle hidle
      obtain ⟨h0, hd0⟩ := hdone ⟨0, hn⟩
      have hslot := hinv.done_slot _ h0 hd0
      have hone := (hinv.slot_some h0 hslot).2
      rw [hs, hone]
      simp [sbn, hsb]
    · intro i j a b hdi hdj
      have hsi := hinv.done_slot i a hdi
      have hsj := hinv.done_slot j b hdj
      rw [hsi] at hsj
      exact Option.some.inj hsj

/-- The concrete single-thread run used to witness `load_single_flight`:
acquire the slot lock, miss the cache, build, store. -/
def run_i0 : Fin 1 := ⟨0, Nat.one_pos⟩

/-- State after `acquire`. -/
def run_c1 : Config 1 :=
  { init_config 1 with
    lock_holder := some run_i0
    threads := Function.update (init_config 1).threads run_i0 PC.locked }

/-- State after `miss` (the build command has been spawned). -/
def run_c2 : Config 1 :=
  { run_c1 with
    spawns := run_c1.spawns + sbn none
    threads := Function.update run_c1.threads run_i0 PC.building }

/-- Final state after `store`: handle 0 created, stored and returned. -/
def run_c3 : Config 1 :=
  { run_c2 with
    slot := some run_c2.creations
    creations := run_c2.creations + 1
    lock_holder := none
    threads := Function.update run_c2.threads run_i0 (PC.done run_c2.creations) }

/-- Witness for `load_single_flight`: a complete one-caller run with
`DYLO_BUILD` unset reaches a final configuration where every caller is
done, the build command ran exactly once, and at most one handle was
created. -/
theorem load_single_flight_witness :
    ∃ c : Config 1, Reach none c ∧ c.spawns = 1 ∧ c.creations ≤ 1 ∧
      ∀ i : Fin 1, ∃ h, c.threads i = PC.done h := by
  have s1 : Step none (init_config 1) run_c1 := Step.acquire run_i0 (init_config 1) rfl rfl
  have s2 : Step none run_c1 run_c2 := Step.miss run_i0 run_c1 (by decide) rfl rfl
  have s3 : Step none run_c2 run_c3 := Step.store run_i0 run_c2 (by decide) rfl
  have hreach : Reach none run_c3 :=
    Relation.ReflTransGen.head s1 (Relation.ReflTransGen.head s2 (Relation.ReflTransGen.single s3))
  have hdone : ∀ i : Fin 1, ∃ h, run_c3.threads i = PC.done h := by
    intro i
    refine ⟨0, ?_⟩
    have hi : i = run_i0 := Fin.ext (by omega)
    rw [hi]
    decide
  have hmain := load_single_flight none run_c3 hreach
  exact ⟨run_c3, hreach, (hmain.2 (by decide) hdone Nat.one_pos).1, hmain.1, hdone⟩

/-! ## Helper lemmas about the sequential model -/

theorem load_mod_poisoned (os : TargetOS) (env : Env) (w : World) (m : String)
    (da : Bool) {s : SlotState} (hp : s.poisoned = true) :
    load_mod_model os env w m da s = ⟨.error .lock_poisoned, s, 0⟩ := by
  simp [load_mod_model, hp]

theorem load_seq_poisoned (os : TargetOS) (m : String) (da : Bool)
    (inputs : List (Env × World)) {s : SlotState} (hp : s.poisoned = true) :
    load_seq os m da inputs s =
      (inputs.map (fun _ => (Except.error LoadError.lock_poisoned, 0)), s) := by
  induction inputs with
  | nil => simp [load_seq]
  | cons p rest ih =>
    obtain ⟨e, w⟩ := p
    simp [load_seq, load_mod_poisoned os e w m da hp, ih]

theorem load_mod_error_poisons (os : TargetOS) (env : Env) (w : World) (m : String)
    (da : Bool) (s : SlotState) (e : LoadError)
    (h : (load_mod_model os env w m da s).outcome = .error e) :
    (load_mod_model os env w m da s).state.poisoned = true := by
  cases hp : s.poisoned with
  | true => simp [load_mod_model, hp]
  | false =>
    cases hs : s.slot with
    | some a => simp [load_mod_model, hp, hs] at h
    | none =>
      rcases hbm : build_mod_model os env w m da with ⟨res, k⟩
      cases res with
      | error e2 => simp [load_mod_model, hp, hs, hbm]
      | ok u =>
        cases hext : Extensions.get os with
        | none => simp [load_mod_model, hp, hs, hbm, hext]
        | some ext =>
          cases hdl : w.dlopen_ok with
          | false => simp [load_mod_model, hp, hs, hbm, hext, hdl]
          | true =>
            cases hds : w.dlsym_ok with
            | false => simp [load_mod_model, hp, hs, hbm, hext, hdl, hds]
            | true => simp [load_mod_model, hp, hs, hbm, hext, hdl, hds] at h

theorem load_mod_cached (os : TargetOS) (env : Env) (w : World) (m : String)
    (da : Bool) {s : SlotState} (a : Nat)
    (hslot : s.slot = some a) (hpois : s.poisoned = false) :
    load_mod_model os env w m da s = ⟨.ok a, s, 0⟩ := by
  simp [load_mod_model, hpois, hslot]

theorem load_mod_ok_state (os : TargetOS) (env : Env) (w : World) (m : String)
    (da : Bool) (s : SlotState) (a : Nat)
    (h : (load_mod_model os env w m da s).outcome = .ok a) :
    (load_mod_model os env w m da s).state.slot = some a ∧
    (load_mod_model os env w m da s).state.poisoned = false := by
  cases hp : s.poisoned with
  | true => simp [load_mod_model, hp] at h
  | false =>
    cases hs : s.slot with
    | some b =>
      rw [load_mod_cached os env w m da b hs hp] at h ⊢
      obtain rfl : b = a := by simpa using h
      exact ⟨hs, hp⟩
    | none =>
      rcases hbm : build_mod_model os env w m da with ⟨res, k⟩
      cases res with
      | error e2 => simp [load_mod_model, hp, hs, hbm] at h
      | ok u =>
        cases hext : Extensions.get os with
        | none => simp [load_mod_model, hp, hs, hbm, hext] at h
        | some ext =>
          cases hdl : w.dlopen_ok with
          | false => simp [load_mod_model, hp, hs, hbm, hext, hdl] at h
          | true =>
            cases hds : w.dlsym_ok with
            | false => simp [load_mod_model, hp, hs, hbm, hext, hdl, hds] at h
            | true =>
              simp [load_mod_model, hp, hs, hbm, hext, hdl, hds] at h ⊢
              rw [h]

/-! ## Concrete environments and worlds used in witnesses and
counterexamples -/

/-- A default environment: `DYLO_BUILD` and `DYLO_TARGET_DIR` unset,
`HOME` set. -/
def env_home : Env :=
  { dylo_build := none, dylo_target_dir := none, home := some "/home/user",
    userprofile := none }

/-- A world where everything succeeds: the module source directory is
found, the build command runs and exits 0, the copy succeeds, and the
dynamic loader finds the library and its entry point, producing handle 7. -/
def world_ok : World :=
  { exe_folder := "/app/bin", mod_srcdir := some "/work/mod-beta",
    spawn_ok := true, build_lines := [], build_exit_ok := true,
    copy_ok := true, dbg_exists := false, dbg_copy_ok := true,
    dlopen_ok := true, dlerr := "", dlsym_ok := true, dlsym_err := "",
    handle := 7 }

/-- Like `world_ok` but the build command exits non-zero. -/
def world_build_fails : World := { world_ok with build_exit_ok := false }

/-- Claim C2: once a `load_mod` call for a name has returned successfully
with handle `a`, every subsequent call for that name — under any
environment and any state of the outside world — returns the same cached
handle, leaves the slot untouched, and spawns no build command (the model
returns at the cache check, before any path computation or build). -/
theorem second_load_returns_cached_handle (os : TargetOS) (e1 e2 : Env)
    (w1 w2 : World) (m : String) (da : Bool) (s : SlotState) (a : Nat)
    (h : (load_mod_model os e1 w1 m da s).outcome = .ok a) :
    load_mod_model os e2 w2 m da (load_mod_model os e1 w1 m da s).state =
      ⟨.ok a, (load_mod_model os e1 w1 m da s).state, 0⟩ := by
  obtain ⟨hslot, hpois⟩ := load_mod_ok_state os e1 w1 m da s a h
  exact load_mod_cached os e2 w2 m da a hslot hpois

/-- Witness for `second_load_returns_cached_handle` at a concrete
successful first load. -/
theorem second_load_returns_cached_handle_witness :
    load_mod_model .linux env_home world_ok "beta" true
        (load_mod_model .linux env_home world_ok "beta" true ⟨none, false⟩).state =
      ⟨.ok 7, (load_mod_model .linux env_home world_ok "beta" true ⟨none, false⟩).state, 0⟩ :=
  second_load_returns_cached_handle .linux env_home env_home world_ok world_ok
    "beta" true ⟨none, false⟩ 7 rfl

/-- Claim C10: a `load_mod` call that fails does so while holding the
slot's mutex, leaving it poisoned; from then on every later call for the
same name fails immediately at `slot.lock().unwrap()` with the poison
panic, runs no build, and never changes the state again. -/
theorem failed_load_poisons_slot_forever (os : TargetOS) (env : Env) (w : World)
    (m : String) (da : Bool) (s : SlotState) (err : LoadError)
    (h : (load_mod_model os env w m da s).outcome = .error err) :
    (load_mod_model os env w m da s).state.poisoned = true ∧
    ∀ inputs : List (Env × World),
      load_seq os m da inputs (load_mod_model os env w m da s).state =
        (inputs.map (fun _ => (Except.error LoadError.lock_poisoned, 0)),
         (load_mod_model os env w m da s).state) := by
  have hp := load_mod_error_poisons os env w m da s err h
  exact ⟨hp, fun inputs => load_seq_poisoned os m da inputs hp⟩

/-- Witness for `failed_load_poisons_slot_forever`: a failed build poisons
the slot and two later calls — with a world in which everything would now
succeed — still fail with the poison panic and spawn nothing. -/
theorem failed_load_poisons_slot_forever_witness :
    (load_mod_model .linux env_home world_build_fails "beta" true ⟨none, false⟩).state.poisoned = true ∧
    load_seq .linux "beta" true [(env_home, world_ok), (env_home, world_ok)]
        (load_mod_model .linux env_home world_build_fails "beta" true ⟨none, false⟩).state =
      ([(Except.error LoadError.lock_poisoned, 0), (Except.error LoadError.lock_poisoned, 0)],
       (load_mod_model .linux env_home world_build_fails "beta" true ⟨none, false⟩).state) := by
  have hmain := failed_load_poisons_slot_forever .linux env_home world_build_fails
    "beta" true ⟨none, false⟩ (LoadError.build_failed "beta" []) rfl
  refine ⟨hmain.1, ?_⟩
  have h2 := hmain.2 [(env_home, world_ok), (env_home, world_ok)]
  simpa using h2

/-- Counterexample to Claim C3 as stated: the loader's filename pattern
prefixes the module name with `libmod_`, not `lib`; for module `beta` on
Linux the file is `libmod_beta.so`, not `libbeta.so`. -/
theorem module_file_name_spec_mismatch_cex :
    lib_file_name "beta" "so" = "libmod_beta.so" ∧
    spec_lib_file_name "beta" "so" = "libbeta.so" ∧
    lib_file_name "beta" "so" ≠ spec_lib_file_name "beta" "so" := by
  refine ⟨rfl, rfl, ?_⟩
  decide

/-- Claim C3 (amended): every place the loader names the module binary —
the copy destination beside the executable, the built artifact inside the
cargo target directory, and the path handed to `dlopen` — uses the single
pattern `libmod_<module_name>.<library_suffix>`. -/
theorem module_file_name_uses_libmod_pattern (f t p m x : String) :
    lib_file_name m x = "libmod_" ++ m ++ "." ++ x ∧
    build_dylib_dest f m x = load_dylib_path f m x ∧
    build_dylib_src t p m x = t ++ "/" ++ p ++ "/" ++ lib_file_name m x ∧
    load_dylib_path f m x = f ++ "/" ++ lib_file_name m x := by
  refine ⟨rfl, ?_, rfl, rfl⟩
  show f ++ "/" ++ "libmod_" ++ m ++ "." ++ x =
    f ++ "/" ++ ("libmod_" ++ m ++ "." ++ x)
  rw [String.append_assoc (f ++ "/") "libmod_" m,
      String.append_assoc (f ++ "/") ("libmod_" ++ m) ".",
      String.append_assoc (f ++ "/") ("libmod_" ++ m ++ ".") x]

/-- Environment with the target-directory override set to a relative path
that exists nowhere. -/
def env_relative_override : Env :=
  { dylo_build := none, dylo_target_dir := some "relative/does-not-exist",
    home := some "/home/user", userprofile := none }

/-- Counterexample to Claim C4 as stated: with the override set to a
relative (hence non-absolute, nonexistent) path, `get_target_dir` returns
it without any error, and the load proceeds all the way: the build
command is spawned and the load succeeds. No fatal error is ever raised,
let alone before other work. -/
theorem target_dir_override_not_validated_cex :
    get_target_dir env_relative_override "alpha" = .ok "relative/does-not-exist" ∧
    leads_with "relative/does-not-exist".toList "/".toList = false ∧
    (load_mod_model .linux env_relative_override world_ok "alpha" true ⟨none, false⟩).spawns = 1 ∧
    (load_mod_model .linux env_relative_override world_ok "alpha" true ⟨none, false⟩).outcome = .ok 7 := by
  refine ⟨rfl, ?_, rfl, rfl⟩
  decide

/-- Claim C4 (amended): when the target-directory override variable is
set, its value is used verbatim as the cargo target directory — no
absolute-path check and no existence check is performed, and no error is
raised. -/
theorem target_dir_override_used_verbatim (dir : String) (b h u : Option String)
    (m : String) :
    get_target_dir
      { dylo_build := b, dylo_target_dir := some dir, home := h, userprofile := u } m
      = .ok dir := rfl

/-- Counterexample to Claim C5 as stated: a first load in the default
build mode with the binary present (the dynamic open succeeds on it)
still spawns the external build command once — the code never consults
the filesystem for the binary before building. -/
theorem build_runs_despite_existing_binary_cex :
    (load_mod_model .linux env_home world_ok "beta" true ⟨none, false⟩).outcome = .ok 7 ∧
    (load_mod_model .linux env_home world_ok "beta" true ⟨none, false⟩).spawns = 1 :=
  ⟨rfl, rfl⟩

theorem build_mod_model_spawn_count (os : TargetOS) (env : Env) (w : World)
    (m : String) (da : Bool) (ext : Extensions) (d t : String)
    (hos : Extensions.get os = some ext)
    (hsrc : w.mod_srcdir = some d)
    (htgt : get_target_dir env m = .ok t) :
    (build_mod_model os env w m da).2 =
      if (BuildMod.from_env env.dylo_build).should_build then 1 else 0 := by
  cases hmode : (BuildMod.from_env env.dylo_build).should_build with
  | false => simp [build_mod_model, hos, hsrc, htgt, hmode]
  | true =>
    cases hspawn : w.spawn_ok <;> cases hexit : w.build_exit_ok <;>
      cases hcopy : w.copy_ok <;> cases hdbg : w.dbg_exists <;>
      cases hdbgc : w.dbg_copy_ok <;>
      simp [build_mod_model, hos, hsrc, htgt, hmode, hspawn, hexit, hcopy, hdbg, hdbgc]

theorem load_mod_model_spawns_eq_build (os : TargetOS) (env : Env) (w : World)
    (m : String) (da : Bool) :
    (load_mod_model os env w m da ⟨none, false⟩).spawns =
      (build_mod_model os env w m da).2 := by
  rcases hbm : build_mod_model os env w m da with ⟨res, k⟩
  cases res with
  | error e => simp [load_mod_model, hbm]
  | ok u =>
    cases hext : Extensions.get os with
    | none => simp [load_mod_model, hbm, hext]
    | some ext =>
      cases hdl : w.dlopen_ok <;> cases hds : w.dlsym_ok <;>
        simp [load_mod_model, hbm, hext, hdl, hds]

/-- Claim C5 (amended): on a first load the external build command is
spawned exactly when the build mode permits building (`DYLO_BUILD`
anything but `"0"`), regardless of whether the module binary already
exists anywhere; only `DYLO_BUILD="0"` prevents the spawn. -/
theorem build_spawn_depends_only_on_mode (os : TargetOS) (env : Env) (w : World)
    (m : String) (da : Bool) (ext : Extensions) (d t : String)
    (hos : Extensions.get os = some ext)
    (hsrc : w.mod_srcdir = some d)
    (htgt : get_target_dir env m = .ok t) :
    (load_mod_model os env w m da ⟨none, false⟩).spawns =
      if (BuildMod.from_env env.dylo_build).should_build then 1 else 0 := by
  rw [load_mod_model_spawns_eq_build]
  exact build_mod_model_spawn_count os env w m da ext d t hos hsrc htgt

/-- Witness for `build_spawn_depends_only_on_mode` with `DYLO_BUILD`
unset. -/
theorem build_spawn_depends_only_on_mode_witness :
    Extensions.get .linux = some { lib := "so", dbg := "so.dwp" } ∧
    world_ok.mod_srcdir = some "/work/mod-beta" ∧
    get_target_dir env_home "beta" = .ok "/home/user/.dylo-mods/beta" ∧
    (load_mod_model .linux env_home world_ok "beta" true ⟨none, false⟩).spawns =
      if (BuildMod.from_env env_home.dylo_build).should_build then 1 else 0 := by
  refine ⟨rfl, rfl, rfl, ?_⟩
  exact build_spawn_depends_only_on_mode .linux env_home world_ok "beta" true
    { lib := "so", dbg := "so.dwp" } "/work/mod-beta" "/home/user/.dylo-mods/beta"
    rfl rfl rfl

/-- Counterexample to Claim C6 as stated: setting the build-mode variable
to `"skip"` does not skip the build phase — it falls into the default
match arm and builds (captured output). `"quiet"` likewise is not a
recognized value of its own. -/
theorem build_mode_skip_not_recognized_cex :
    BuildMod.from_env (some "skip") = BuildMod.yes ∧
    (BuildMod.from_env (some "skip")).should_build = true ∧
    BuildMod.from_env (some "quiet") = BuildMod.yes :=
  ⟨rfl, rfl, rfl⟩

/-- Claim C6 (amended): the build-mode variable recognizes `"0"` (skip
the build phase entirely), `"1"` (build with captured output) and
`"verbose"` (build with streamed output); every other value — including
the variable being unset, `"skip"` and `"quiet"` — defaults to the
captured-output build mode. -/
theorem build_mode_recognized_values :
    BuildMod.from_env (some "0") = BuildMod.dont ∧
    BuildMod.from_env (some "1") = BuildMod.yes ∧
    BuildMod.from_env (some "verbose") = BuildMod.verbosely ∧
    BuildMod.from_env none = BuildMod.yes ∧
    BuildMod.dont.should_build = false ∧
    BuildMod.yes.should_build = true ∧
    BuildMod.yes.is_verbose = false ∧
    BuildMod.verbosely.should_build = true ∧
    BuildMod.verbosely.is_verbose = true :=
  ⟨rfl, rfl, rfl, rfl, rfl, rfl, rfl, rfl, rfl⟩

/-- Environment selecting the skip build mode (`DYLO_BUILD="0"`). -/
def env_skip : Env :=
  { dylo_build := some "0", dylo_target_dir := none, home := some "/home/user",
    userprofile := none }

/-- A world in which the module binary is missing: the dynamic open
fails with the OS loader's diagnostic. -/
def world_missing : World :=
  { world_ok with
    mod_srcdir := some "/work/mod-alpha"
    dlopen_ok := false
    dlerr := "cannot open shared object file"
    handle := 0 }

/-- Counterexample to Claim C8 as stated: in skip mode with the binary
absent, the failure is the dynamic-loader diagnostic panic, not a
module-not-found error enumerating searched directories — the message
does not even mention the one directory that was consulted
(`/app/bin`). The no-process-spawned half of the claim does hold. -/
theorem skip_mode_error_does_not_enumerate_cex :
    (load_mod_model .linux env_skip world_missing "alpha" true ⟨none, false⟩).outcome =
      .error (.dlopen_failed "Failed to load dynamic library: cannot open shared object file") ∧
    (load_mod_model .linux env_skip world_missing "alpha" true ⟨none, false⟩).spawns = 0 ∧
    mentions "Failed to load dynamic library: cannot open shared object file" "/app/bin"
      = false := by
  refine ⟨rfl, rfl, ?_⟩
  decide

/-- Claim C8 (amended): with the build phase skipped (`DYLO_BUILD="0"`)
and the binary missing, `load_mod` spawns no external process and fails
with the dynamic-loader error carrying the OS diagnostic (there is no
path-enumerating module-not-found error in the code). -/
theorem skip_mode_missing_binary_dlopen_failure (os : TargetOS) (env : Env)
    (w : World) (m : String) (da : Bool) (ext : Extensions) (d t : String)
    (hos : Extensions.get os = some ext)
    (hsrc : w.mod_srcdir = some d)
    (htgt : get_target_dir env m = .ok t)
    (hmode : (BuildMod.from_env env.dylo_build).should_build = false)
    (hdl : w.dlopen_ok = false) :
    load_mod_model os env w m da ⟨none, false⟩ =
      ⟨.error (.dlopen_failed ("Failed to load dynamic library: " ++ w.dlerr)),
       ⟨none, true⟩, 0⟩ := by
  have hbm : build_mod_model os env w m da = (.ok (), 0) := by
    simp [build_mod_model, hos, hsrc, htgt, hmode]
  simp [load_mod_model, hbm, hos, hdl]

/-- Witness for `skip_mode_missing_binary_dlopen_failure` at the concrete
skip-mode, missing-binary input. -/
theorem skip_mode_missing_binary_dlopen_failure_witness :
    (BuildMod.from_env env_skip.dylo_build).should_build = false ∧
    world_missing.dlopen_ok = false ∧
    load_mod_model .linux env_skip world_missing "alpha" true ⟨none, false⟩ =
      ⟨.error (.dlopen_failed ("Failed to load dynamic library: " ++ world_missing.dlerr)),
       ⟨none, true⟩, 0⟩ := by
  refine ⟨rfl, rfl, ?_⟩
  exact skip_mode_missing_binary_dlopen_failure .linux env_skip world_missing
    "alpha" true { lib := "so", dbg := "so.dwp" } "/work/mod-alpha"
    "/home/user/.dylo-mods/alpha" rfl rfl rfl rfl rfl

/-- Claim C9: the platform extensions are a pure function of the
compile-time target OS — `dylib`/`dSYM` on macOS, `so`/`so.dwp` on Linux
— and any other target OS is a process-fatal panic (modelled as `none`),
not a recoverable condition. -/
theorem extensions_pure_function_of_os :
    Extensions.get .macos = some { lib := "dylib", dbg := "dSYM" } ∧
    Extensions.get .linux = some { lib := "so", dbg := "so.dwp" } ∧
    Extensions.get .other = none :=
  ⟨rfl, rfl, rfl⟩

/-! ## Build-failure log (claim C7) -/

theorem merged_sublist_left {a b c : List String} (h : Merged a b c) :
    List.Sublist a c := by
  induction h with
  | nil => exact List.Sublist.refl []
  | left x _ ih => exact List.Sublist.cons₂ x ih
  | right x _ ih => exact List.Sublist.cons x ih

theorem merged_sublist_right {a b c : List String} (h : Merged a b c) :
    List.Sublist b c := by
  induction h with
  | nil => exact List.Sublist.refl []
  | left x _ ih => exact List.Sublist.cons x ih
  | right x _ ih => exact List.Sublist.cons₂ x ih

theorem sublist_build_failure_report (m : String) (L : List String) :
    List.Sublist L (build_failure_report m L) := by
  unfold build_failure_report
  exact List.Sublist.trans (List.sublist_append_right _ L) (List.sublist_append_left _ _)

/-- Claim C7: when the (piped-output) build command exits non-zero, the
load fails with the build-failure panic whose payload is the collected
log; that log is an arrival-order interleaving of the `[stdout]`-tagged
and `[stderr]`-tagged lines, and the failure report printed at the panic
site contains every tagged line of both streams, in arrival order. -/
theorem build_failure_carries_interleaved_log (os : TargetOS) (env : Env)
    (w : World) (m : String) (da : Bool) (ce : Bool) (ext : Extensions)
    (d t : String) (outLines errLines : List String)
    (hos : Extensions.get os = some ext)
    (hsrc : w.mod_srcdir = some d)
    (htgt : get_target_dir env m = .ok t)
    (hmode : BuildMod.from_env env.dylo_build = .yes)
    (hspawn : w.spawn_ok = true)
    (hexit : w.build_exit_ok = false)
    (hmerge : Merged (tag_lines (blue ce "stdout") outLines)
                     (tag_lines (red ce "stderr") errLines) w.build_lines) :
    (load_mod_model os env w m da ⟨none, false⟩).outcome =
      .error (.build_failed m w.build_lines) ∧
    List.Sublist (tag_lines (blue ce "stdout") outLines)
      (build_failure_report m w.build_lines) ∧
    List.Sublist (tag_lines (red ce "stderr") errLines)
      (build_failure_report m w.build_lines) := by
  refine ⟨?_, ?_, ?_⟩
  · have hbm : build_mod_model os env w m da =
        (.error (.build_failed m w.build_lines), 1) := by
      simp [build_mod_model, hos, hsrc, htgt, hmode, hspawn, hexit,
        BuildMod.should_build, BuildMod.is_verbose]
    simp [load_mod_model, hbm]
  · exact List.Sublist.trans (merged_sublist_left hmerge)
      (sublist_build_failure_report m w.build_lines)
  · exact List.Sublist.trans (merged_sublist_right hmerge)
      (sublist_build_failure_report m w.build_lines)

/-- Like `world_ok` but the build command fails after producing one line
on each stream, stdout's line arriving first. -/
def world_fail_log : World :=
  { world_ok with
    build_exit_ok := false
    build_lines := ["[stdout] o1", "[stderr] e1"] }

/-- Witness for `build_failure_carries_interleaved_log` at a concrete
failing build whose captured channel holds one tagged line from each
stream. -/
theorem build_failure_carries_interleaved_log_witness :
    (load_mod_model .linux env_home world_fail_log "beta" true ⟨none, false⟩).outcome =
      .error (.build_failed "beta" ["[stdout] o1", "[stderr] e1"]) ∧
    List.Sublist ["[stdout] o1"]
      (build_failure_report "beta" ["[stdout] o1", "[stderr] e1"]) ∧
    List.Sublist ["[stderr] e1"]
      (build_failure_report "beta" ["[stdout] o1", "[stderr] e1"]) := by
  have hmerge : Merged (tag_lines (blue false "stdout") ["o1"])
      (tag_lines (red false "stderr") ["e1"]) world_fail_log.build_lines := by
    show Merged ["[stdout] o1"] ["[stderr] e1"] ["[stdout] o1", "[stderr] e1"]
    exact Merged.left _ (Merged.right _ Merged.nil)
  have hmain := build_failure_carries_interleaved_log .linux env_home world_fail_log
    "beta" true false { lib := "so", dbg := "so.dwp" } "/work/mod-beta"
    "/home/user/.dylo-mods/beta" ["o1"] ["e1"] rfl rfl rfl rfl rfl rfl hmerge
  exact ⟨hmain.1, hmain.2.1, hmain.2.2⟩

end Dylo
